import Mathlib

/-!
Verification of the Cloud Phone custom-API contract declared in
`src/types.d.ts` and documented in `src/README.md`.

The repository ships only ambient TypeScript declarations: the runtime
behavior behind each declared surface (feature registry, volume manager,
back-navigation interceptor, markup behavior flags) lives in the Cloud
Phone browser runtime and is not part of the repository.  Where a
property depends on that missing runtime behavior, the corresponding
definition below is modelled from the specification's description of the
contract; the parts that are present in the source (the known feature
tokens, the declared method names and optionality, the `"back"` event
type discriminator) are transcribed from `src/types.d.ts` directly.
-/

namespace CloudPhone

/-- The known feature tokens, transcribed from the `CloudPhoneFeature`
union type in `src/types.d.ts` lines 66-80. -/
def cloudPhoneFeatures : List String :=
  ["AudioCapture", "AudioPlay", "AudioSeek", "AudioUpload",
   "VideoCapture", "VideoSeek", "VideoUpload",
   "EmbeddedTextInput", "FileDownload", "FileUpload", "ImageUpload",
   "SmsScheme", "TelScheme", "Vibrate"]

/-- Outcome of a promise-returning API call: it either resolves with a
value or rejects with an error. -/
inductive PromiseResult (α : Type) where
  | resolved (value : α)
  | rejected (error : String)
deriving DecidableEq

/-- Modelled from the spec: the implementation of `navigator.hasFeature`
is not in this repository (`src/types.d.ts` line 140 only declares its
signature).  Per the spec, the feature registry reflects static device
capability over the known feature set; name matching is exact and
case-sensitive with no normalization, and unknown, misspelled, or
malformed names resolve to `false` rather than rejecting.  A device is
modelled by a predicate `supported` giving its capability on the known
tokens. -/
def hasFeature (supported : String → Bool) (name : String) : PromiseResult Bool :=
  .resolved (decide (name ∈ cloudPhoneFeatures) && supported name)

/-- Modelled from the spec: the worker-context implementation of
`WorkerNavigator.hasFeature` is not in this repository (`src/types.d.ts`
line 179 only declares its signature, documented as "Same as
navigator.hasFeature but available in Web Workers"); the spec exposes
the query "identically in both main-thread and worker execution
contexts" on the same device. -/
def workerHasFeature (supported : String → Bool) (name : String) : PromiseResult Bool :=
  .resolved (decide (name ∈ cloudPhoneFeatures) && supported name)

/-- C1: for every string name (including names outside the known feature
set), `hasFeature` resolves successfully — it never rejects — and for
every name not in the known feature set it resolves to `false`. -/
theorem hasFeature_never_rejects_unknown_false (supported : String → Bool) (name : String) :
    (∃ b : Bool, hasFeature supported name = PromiseResult.resolved b)
      ∧ (name ∉ cloudPhoneFeatures →
          hasFeature supported name = PromiseResult.resolved false) := by
  refine ⟨⟨_, rfl⟩, fun h => ?_⟩
  simp [hasFeature, h]

/-- Witness for C1 at the unknown name `"GravityControl"`. -/
theorem hasFeature_never_rejects_unknown_false_witness :
    hasFeature (fun _ => true) "GravityControl" = PromiseResult.resolved false :=
  (hasFeature_never_rejects_unknown_false (fun _ => true) "GravityControl").2 (by decide)

/-- C2: for every feature name, the feature query executed in a worker
execution context and in the main execution context of the same device
return the same result. -/
theorem workerHasFeature_eq_hasFeature (supported : String → Bool) (name : String) :
    workerHasFeature supported name = hasFeature supported name := rfl

/-- Character-wise lowercase form of a string, used to state the
case-sensitivity property. -/
def lowercase (s : String) : String :=
  ⟨s.data.map Char.toLower⟩

/-- C3: feature-name matching is exact and case-sensitive with no
normalization: for every known feature token whose lowercase form
differs from the token and is not itself a registered token,
`hasFeature` applied to the lowercase variant resolves to `false`. -/
theorem hasFeature_lowercase_variant_false (supported : String → Bool) (t : String)
    (ht : t ∈ cloudPhoneFeatures) (hne : lowercase t ≠ t)
    (hlow : lowercase t ∉ cloudPhoneFeatures) :
    hasFeature supported (lowercase t) = PromiseResult.resolved false := by
  simp [hasFeature, hlow]

/-- Witness for C3 at the known token `"FileDownload"`, whose lowercase
form `"filedownload"` differs from it and is not registered. -/
theorem hasFeature_lowercase_variant_false_witness :
    hasFeature (fun _ => true) (lowercase "FileDownload") = PromiseResult.resolved false :=
  hasFeature_lowercase_variant_false (fun _ => true) "FileDownload"
    (by decide) (by decide) (by decide)

/-- Modelled from the spec: the device-side volume state behind the
`VolumeManager` interface (`src/types.d.ts` lines 24-58 declare only
`requestUp(): void` and `requestDown(): void`).  The device defines an
integer volume range `minLevel ≤ level ≤ maxLevel` and a HUD
(on-screen volume indicator) whose dismissal timer resets to the
device-defined inactivity timeout `dismissTimeout` on each request. -/
structure VolumeDevice where
  minLevel : Int
  maxLevel : Int
  dismissTimeout : Nat
deriving DecidableEq

/-- Mutable device-global volume state: the current volume level and
the remaining count of the HUD dismissal timer (0 when dismissed). -/
structure VolumeState where
  level : Int
  hudTimer : Nat
deriving DecidableEq

/-- Modelled from the spec: `requestUp()` displays the volume HUD
(resetting its dismissal timer) and immediately raises the system volume
by one increment, clamped at the device-defined maximum; it never
errors, even at the bound. -/
def requestUp (d : VolumeDevice) (s : VolumeState) : VolumeState :=
  { level := min d.maxLevel (s.level + 1), hudTimer := d.dismissTimeout }

/-- Modelled from the spec: `requestDown()` displays the volume HUD
(resetting its dismissal timer) and immediately lowers the system volume
by one increment, clamped at the device-defined minimum; it never
errors, even at the bound. -/
def requestDown (d : VolumeDevice) (s : VolumeState) : VolumeState :=
  { level := max d.minLevel (s.level - 1), hudTimer := d.dismissTimeout }

/-- C4: each volume request adjusts the device-global level by exactly
one increment in the requested direction, clamped at the device-defined
bounds; at the relevant bound the request leaves the level unchanged
(the operations are total, so no request errors). -/
theorem request_one_increment_clamped (d : VolumeDevice) (s : VolumeState) :
    (s.level < d.maxLevel → (requestUp d s).level = s.level + 1)
      ∧ (s.level = d.maxLevel → (requestUp d s).level = s.level)
      ∧ (d.minLevel < s.level → (requestDown d s).level = s.level - 1)
      ∧ (s.level = d.minLevel → (requestDown d s).level = s.level) := by
  refine ⟨fun h => ?_, fun h => ?_, fun h => ?_, fun h => ?_⟩ <;>
    simp only [requestUp, requestDown] <;> omega

/-- Witness for C4 on a device with range 0..10: one step up from 4,
clamped up at 10, one step down from 4, clamped down at 0. -/
theorem request_one_increment_clamped_witness :
    (requestUp ⟨0, 10, 3⟩ ⟨4, 0⟩).level = 5
      ∧ (requestUp ⟨0, 10, 3⟩ ⟨10, 0⟩).level = 10
      ∧ (requestDown ⟨0, 10, 3⟩ ⟨4, 0⟩).level = 3
      ∧ (requestDown ⟨0, 10, 3⟩ ⟨0, 0⟩).level = 0 :=
  ⟨(request_one_increment_clamped ⟨0, 10, 3⟩ ⟨4, 0⟩).1 (by decide),
   (request_one_increment_clamped ⟨0, 10, 3⟩ ⟨10, 0⟩).2.1 (by decide),
   (request_one_increment_clamped ⟨0, 10, 3⟩ ⟨4, 0⟩).2.2.1 (by decide),
   (request_one_increment_clamped ⟨0, 10, 3⟩ ⟨0, 0⟩).2.2.2 (by decide)⟩

/-- Iterating `requestUp` keeps the HUD timer at the reset value and,
while no clamping occurs, adds one increment per request. -/
theorem requestUp_iterate (d : VolumeDevice) :
    ∀ (n : Nat) (s : VolumeState), s.hudTimer = d.dismissTimeout →
      s.level + n ≤ d.maxLevel →
      (requestUp d)^[n] s = ⟨s.level + n, d.dismissTimeout⟩ := by
  intro n
  induction n with
  | zero =>
    intro s ht _
    simp [← ht]
  | succ n ih =>
    intro s ht hb
    rw [Function.iterate_succ_apply]
    have h1 : s.level + 1 ≤ d.maxLevel := by push_cast at hb ⊢; omega
    have h2 : requestUp d s = ⟨s.level + 1, d.dismissTimeout⟩ := by
      simp only [requestUp]
      exact congrArg (fun l => VolumeState.mk l d.dismissTimeout) (by omega)
    rw [h2, ih ⟨s.level + 1, d.dismissTimeout⟩ rfl (by push_cast at hb ⊢; omega)]
    exact congrArg (fun l => VolumeState.mk l d.dismissTimeout) (by push_cast; omega)

/-- Iterating `requestDown` keeps the HUD timer at the reset value and,
while no clamping occurs, removes one increment per request. -/
theorem requestDown_iterate (d : VolumeDevice) :
    ∀ (n : Nat) (s : VolumeState), s.hudTimer = d.dismissTimeout →
      d.minLevel ≤ s.level - n →
      (requestDown d)^[n] s = ⟨s.level - n, d.dismissTimeout⟩ := by
  intro n
  induction n with
  | zero =>
    intro s ht _
    simp [← ht]
  | succ n ih =>
    intro s ht hb
    rw [Function.iterate_succ_apply]
    have h2 : requestDown d s = ⟨s.level - 1, d.dismissTimeout⟩ := by
      simp only [requestDown]
      exact congrArg (fun l => VolumeState.mk l d.dismissTimeout)
        (by push_cast at hb ⊢; omega)
    rw [h2, ih ⟨s.level - 1, d.dismissTimeout⟩ rfl (by push_cast at hb ⊢; omega)]
    exact congrArg (fun l => VolumeState.mk l d.dismissTimeout) (by push_cast; omega)

/-- The HUD dismissal timer is at the reset value after any positive
number of volume requests, whatever mix of directions. -/
theorem hudTimer_after_requests (d : VolumeDevice) :
    ∀ (n : Nat) (s : VolumeState), s.hudTimer = d.dismissTimeout →
      ((requestUp d)^[n] s).hudTimer = d.dismissTimeout
        ∧ ((requestDown d)^[n] s).hudTimer = d.dismissTimeout := by
  intro n
  induction n with
  | zero => intro s ht; simpa using ht
  | succ n ih =>
    intro s ht
    rw [Function.iterate_succ_apply, Function.iterate_succ_apply]
    exact ⟨(ih (requestUp d s) rfl).1, (ih (requestDown d s) rfl).2⟩

/-- Counterexample to C5 as stated: on the device with range 0..10 and
dismiss timeout 3, starting from level 5 with the HUD dismissed
(timer 0), one increase followed by one decrease leaves the dismissal
timer at 3, not at its original count 0. -/
theorem volume_updown_timer_counterexample :
    ¬ (((requestDown ⟨0, 10, 3⟩)^[1] ((requestUp ⟨0, 10, 3⟩)^[1]
        (⟨5, 0⟩ : VolumeState))).hudTimer = (⟨5, 0⟩ : VolumeState).hudTimer) := by
  decide

/-- C5 (amended): for every n and every starting state whose HUD
dismissal timer is at the device reset value, n volume increases
followed by n volume decreases return the indicator to its original
dismiss-timer count; and when no clamping at a bound occurs during the
sequence (the level stays within the device bounds throughout), the
volume level also returns to its original value — the whole state is
restored. -/
theorem volume_updown_restores (d : VolumeDevice) (s : VolumeState) (n : Nat)
    (htimer : s.hudTimer = d.dismissTimeout) :
    ((requestDown d)^[n] ((requestUp d)^[n] s)).hudTimer = s.hudTimer
      ∧ (d.minLevel ≤ s.level → s.level + n ≤ d.maxLevel →
          (requestDown d)^[n] ((requestUp d)^[n] s) = s) := by
  constructor
  · have h1 := (hudTimer_after_requests d n s htimer).1
    have h2 := (hudTimer_after_requests d n ((requestUp d)^[n] s) h1).2
    rw [h2, htimer]
  · intro hmin hmax
    rw [requestUp_iterate d n s htimer hmax,
        requestDown_iterate d n ⟨s.level + n, d.dismissTimeout⟩ rfl (by push_cast; omega)]
    exact congrArg₂ VolumeState.mk (by push_cast; omega) htimer.symm

/-- Witness for C5 (amended) on the device with range 0..10 and timeout
3: from level 5 with a freshly reset timer, 7 ups then 7 downs (which
clamp at 10) restore the timer count, and 2 ups then 2 downs (no
clamping) restore the whole state. -/
theorem volume_updown_restores_witness :
    ((requestDown ⟨0, 10, 3⟩)^[7] ((requestUp ⟨0, 10, 3⟩)^[7]
        (⟨5, 3⟩ : VolumeState))).hudTimer = 3
      ∧ (requestDown ⟨0, 10, 3⟩)^[2] ((requestUp ⟨0, 10, 3⟩)^[2]
          (⟨5, 3⟩ : VolumeState)) = ⟨5, 3⟩ :=
  ⟨(volume_updown_restores ⟨0, 10, 3⟩ ⟨5, 3⟩ 7 rfl).1,
   (volume_updown_restores ⟨0, 10, 3⟩ ⟨5, 3⟩ 2 rfl).2 (by decide) (by decide)⟩

/-- The `back` event object declared in `src/types.d.ts` lines 95-97: a
cancelable event whose only mutable dispatch state is the
default-prevented flag set by `event.preventDefault()`. -/
structure BackEvt where
  defaultPrevented : Bool
deriving DecidableEq

/-- The fixed type discriminator of a back event, transcribed from the
declaration `readonly type: "back"` in `src/types.d.ts` line 96. -/
def backEvtType (_ : BackEvt) : String := "back"

/-- The event name under which `BackEvent` is registered in the
`WindowEventMap` augmentation, `src/types.d.ts` line 212. -/
def windowBackEventName : String := "back"

/-- A freshly created back event: the default is not yet prevented. -/
def initBackEvt : BackEvt := ⟨false⟩

/-- Calling `preventDefault()` on a back event sets the flag; it can
never be unset during the dispatch. -/
def preventDefault (e : BackEvt) : BackEvt := ⟨true⟩

/-- A registered back-event handler: an identifier (its registration
identity) and the decision, given the event it observes, whether it
calls `preventDefault()`. -/
structure BackHandler where
  hid : Nat
  cancels : BackEvt → Bool

/-- Running one handler on the event: it either cancels the event via
`preventDefault` or leaves it as it is. -/
def applyHandler (e : BackEvt) (h : BackHandler) : BackEvt :=
  if h.cancels e then preventDefault e else e

/-- Modelled from the spec: the runtime's event dispatch (not in this
repository) invokes the registered handlers one after the other, in
registration order, each observing the event state left by its
predecessors. -/
def runHandlers (e : BackEvt) (hs : List BackHandler) : BackEvt :=
  hs.foldl applyHandler e

/-- Event dispatch instrumented with an invocation log: it also records
the identifier of each handler in the order it was invoked. -/
def runHandlersLog (e : BackEvt) (hs : List BackHandler) : BackEvt × List Nat :=
  hs.foldl (fun acc h => (applyHandler acc.1 h, acc.2 ++ [h.hid])) (e, [])

/-- Application-visible state acted on by the back default behavior: the
history stack and how many times the application was closed. -/
structure AppState where
  history : List Nat
  closeCount : Nat
deriving DecidableEq

/-- Modelled from the spec: the default behavior of the back event —
navigate one step back in the history stack, or close the application
when no history entry exists. -/
def defaultBack (s : AppState) : AppState :=
  match s.history with
  | [] => { s with closeCount := s.closeCount + 1 }
  | _ :: rest => { s with history := rest }

/-- Modelled from the spec: dispatching the back event runs every
registered handler on a fresh event and performs the default behavior
only if no handler prevented it. -/
def dispatchBack (hs : List BackHandler) (s : AppState) : AppState :=
  if (runHandlers initBackEvt hs).defaultPrevented then s else defaultBack s

/-- A prevented event stays prevented through any further handlers. -/
theorem runHandlers_prevented_mono :
    ∀ (hs : List BackHandler) (e : BackEvt), e.defaultPrevented = true →
      (runHandlers e hs).defaultPrevented = true := by
  intro hs
  induction hs with
  | nil => intro e he; exact he
  | cons h t ih =>
    intro e he
    have : applyHandler e h = ⟨true⟩ := by
      simp only [applyHandler, preventDefault]
      have : e = ⟨true⟩ := by cases e; simp_all
      rw [this]
      split <;> rfl
    rw [runHandlers, List.foldl_cons, ← runHandlers, this]
    exact ih ⟨true⟩ rfl

/-- If some handler in the registered list cancels the event at its
invocation point, the dispatched event ends up prevented. -/
theorem runHandlers_prevented_of_cancel (e : BackEvt) (l₁ l₂ : List BackHandler)
    (h : BackHandler) (hc : h.cancels (runHandlers e l₁) = true) :
    (runHandlers e (l₁ ++ h :: l₂)).defaultPrevented = true := by
  have hsplit : runHandlers e (l₁ ++ h :: l₂) =
      runHandlers (applyHandler (runHandlers e l₁) h) l₂ := by
    simp [runHandlers, List.foldl_append]
  rw [hsplit]
  apply runHandlers_prevented_mono
  simp [applyHandler, hc, preventDefault]

/-- If no handler in the registered list cancels the event at its
invocation point, the dispatched event is not prevented. -/
theorem runHandlers_not_prevented (hs : List BackHandler) :
    ∀ (e : BackEvt), e.defaultPrevented = false →
      (∀ (l₁ : List BackHandler) (h : BackHandler) (l₂ : List BackHandler),
        hs = l₁ ++ h :: l₂ → h.cancels (runHandlers e l₁) = false) →
      (runHandlers e hs).defaultPrevented = false := by
  induction hs with
  | nil => intro e he _; exact he
  | cons hd t ih =>
    intro e he hno
    have hcd : hd.cancels e = false := by
      have := hno [] hd t rfl
      simpa [runHandlers] using this
    have happ : applyHandler e hd = e := by simp [applyHandler, hcd]
    rw [runHandlers, List.foldl_cons, ← runHandlers, happ]
    apply ih e he
    intro l₁ h l₂ heq
    have := hno (hd :: l₁) h l₂ (by rw [heq]; rfl)
    simpa [runHandlers, List.foldl_cons, happ] using this

/-- C6: for every back-event dispatch, if some registered handler
cancels the event at its invocation point, neither history navigation
nor application close occurs; if no handler cancels it and the history
stack is non-empty, the application navigates exactly one step back; if
no handler cancels it and the history stack is empty, the application
closes exactly once. -/
theorem dispatchBack_default_behavior (hs : List BackHandler) (s : AppState) :
    ((∃ l₁ h l₂, hs = l₁ ++ h :: l₂ ∧ h.cancels (runHandlers initBackEvt l₁) = true) →
        dispatchBack hs s = s)
      ∧ ((∀ (l₁ : List BackHandler) (h : BackHandler) (l₂ : List BackHandler),
            hs = l₁ ++ h :: l₂ → h.cancels (runHandlers initBackEvt l₁) = false) →
          (∀ p rest, s.history = p :: rest →
              dispatchBack hs s = { history := rest, closeCount := s.closeCount })
            ∧ (s.history = [] →
                dispatchBack hs s = { history := [], closeCount := s.closeCount + 1 })) := by
  constructor
  · rintro ⟨l₁, h, l₂, rfl, hc⟩
    simp [dispatchBack, runHandlers_prevented_of_cancel initBackEvt l₁ l₂ h hc]
  · intro hno
    have hflag := runHandlers_not_prevented hs initBackEvt rfl hno
    constructor
    · intro p rest hhist
      simp [dispatchBack, hflag, defaultBack, hhist]
    · intro hhist
      simp [dispatchBack, hflag, defaultBack, hhist]

/-- A registration list consisting of one never-canceling handler has no
canceling split point. -/
theorem singleton_no_cancel (x : BackHandler) (hx : ∀ e, x.cancels e = false) :
    ∀ (l₁ : List BackHandler) (h : BackHandler) (l₂ : List BackHandler),
      [x] = l₁ ++ h :: l₂ → h.cancels (runHandlers initBackEvt l₁) = false := by
  rintro (_ | ⟨a, l₁⟩) h l₂ heq
  · simp only [List.nil_append, List.cons.injEq] at heq
    obtain ⟨rfl, -⟩ := heq
    exact hx _
  · exfalso
    simp only [List.cons_append, List.cons.injEq] at heq
    exact absurd heq.2.symm (by simp)

/-- Witness for C6: a canceling handler suppresses both effects; a
non-canceling handler pops one history entry; with empty history and a
non-canceling handler the close count rises by exactly one. -/
theorem dispatchBack_default_behavior_witness :
    dispatchBack [⟨1, fun _ => true⟩] ⟨[7], 0⟩ = ⟨[7], 0⟩
      ∧ dispatchBack [⟨2, fun _ => false⟩] ⟨[7], 0⟩ = ⟨[], 0⟩
      ∧ dispatchBack [⟨2, fun _ => false⟩] ⟨[], 0⟩ = ⟨[], 1⟩ := by
  refine ⟨(dispatchBack_default_behavior [⟨1, fun _ => true⟩] ⟨[7], 0⟩).1
      ⟨[], ⟨1, fun _ => true⟩, [], rfl, rfl⟩, ?_, ?_⟩
  · exact ((dispatchBack_default_behavior [⟨2, fun _ => false⟩] ⟨[7], 0⟩).2
      (singleton_no_cancel ⟨2, fun _ => false⟩ (fun _ => rfl))).1 7 [] rfl
  · exact ((dispatchBack_default_behavior [⟨2, fun _ => false⟩] ⟨[], 0⟩).2
      (singleton_no_cancel ⟨2, fun _ => false⟩ (fun _ => rfl))).2 rfl

/-- C7: every dispatch invokes the registered handlers in registration
order (the instrumented dispatch computes the same event and logs the
handler identifiers in list order), and if any single handler cancels
the event at its invocation point the default behavior is suppressed
for the whole dispatch. -/
theorem dispatchBack_order_and_suppression (hs : List BackHandler) (s : AppState) :
    (runHandlersLog initBackEvt hs).2 = hs.map BackHandler.hid
      ∧ (runHandlersLog initBackEvt hs).1 = runHandlers initBackEvt hs
      ∧ (∀ (l₁ : List BackHandler) (h : BackHandler) (l₂ : List BackHandler),
          hs = l₁ ++ h :: l₂ → h.cancels (runHandlers initBackEvt l₁) = true →
          dispatchBack hs s = s) := by
  have hsnd : ∀ (l : List BackHandler) (e : BackEvt) (acc : List Nat),
      (l.foldl (fun acc h => (applyHandler acc.1 h, acc.2 ++ [h.hid])) (e, acc)).2
        = acc ++ l.map BackHandler.hid := by
    intro l
    induction l with
    | nil => intro e acc; simp
    | cons hd t ih => intro e acc; simp [ih]
  have hfst : ∀ (l : List BackHandler) (e : BackEvt) (acc : List Nat),
      (l.foldl (fun acc h => (applyHandler acc.1 h, acc.2 ++ [h.hid])) (e, acc)).1
        = l.foldl applyHandler e := by
    intro l
    induction l with
    | nil => intro e acc; rfl
    | cons hd t ih => intro e acc; simp [ih]
  refine ⟨hsnd hs initBackEvt [], hfst hs initBackEvt [], ?_⟩
  rintro l₁ h l₂ rfl hc
  simp [dispatchBack, runHandlers_prevented_of_cancel initBackEvt l₁ l₂ h hc]

/-- Witness for C7: with two handlers registered (identifiers 5 then 9),
the invocation log is `[5, 9]`, and the second handler canceling
suppresses the default: the history stack is untouched. -/
theorem dispatchBack_order_and_suppression_witness :
    (runHandlersLog initBackEvt [⟨5, fun _ => false⟩, ⟨9, fun _ => true⟩]).2 = [5, 9]
      ∧ dispatchBack [⟨5, fun _ => false⟩, ⟨9, fun _ => true⟩] ⟨[3], 0⟩ = ⟨[3], 0⟩ :=
  ⟨(dispatchBack_order_and_suppression
      [⟨5, fun _ => false⟩, ⟨9, fun _ => true⟩] ⟨[3], 0⟩).1,
   (dispatchBack_order_and_suppression
      [⟨5, fun _ => false⟩, ⟨9, fun _ => true⟩] ⟨[3], 0⟩).2.2
      [⟨5, fun _ => false⟩] ⟨9, fun _ => true⟩ [] rfl rfl⟩

/-- Modelled from the spec: the standard event-dispatch mechanism
delivers to a listener registered under a name exactly the events whose
type discriminator equals that name. -/
def listenerReceives (registeredName : String) (e : BackEvt) : Bool :=
  registeredName == backEvtType e

/-- C10: every back event carries the fixed type discriminator `"back"`,
which coincides with the event name under which `BackEvent` is
registered in the window event map, so a listener registered for
`"back"` receives exactly the events whose type field is `"back"`. -/
theorem backEvt_type_discriminator :
    (∀ e : BackEvt, backEvtType e = "back")
      ∧ backEvtType initBackEvt = windowBackEventName
      ∧ (∀ (name : String) (e : BackEvt),
          listenerReceives name e = true ↔ name = windowBackEventName) := by
  refine ⟨fun e => rfl, rfl, fun name e => ?_⟩
  simp [listenerReceives, backEvtType, windowBackEventName]

/-- A method declaration of an interface: its name and whether its
declared return type is `void` (it returns no value). -/
structure MethodDecl where
  mname : String
  returnsVoid : Bool
deriving DecidableEq

/-- The method declarations of the `VolumeManager` interface,
transcribed from `src/types.d.ts` lines 24-58: `requestUp(): void` and
`requestDown(): void`. -/
def volumeManagerMethods : List MethodDecl :=
  [⟨"requestUp", true⟩, ⟨"requestDown", true⟩]

/-- The Cloud Phone `Navigator` augmentation, transcribed from
`src/types.d.ts` line 162: the `volumeManager` field is declared
optional (`volumeManager?: VolumeManager`), so on a host lacking the
capability it is absent rather than throwing on access. -/
structure NavigatorModel where
  volumeManager : Option VolumeDevice

/-- Reading `navigator.volumeManager`: a total lookup returning the
optional controller — absence is a value to null-check, never an
exception. -/
def readVolumeManager (nav : NavigatorModel) : Option VolumeDevice :=
  nav.volumeManager

/-- Counterexample to C8 as stated: the `VolumeManager` interface in the
source declares no operations named `requestIncrease` or
`requestDecrease`. -/
theorem volumeManager_method_names_counterexample :
    "requestIncrease" ∉ volumeManagerMethods.map MethodDecl.mname
      ∧ "requestDecrease" ∉ volumeManagerMethods.map MethodDecl.mname := by
  decide

/-- C8 (amended): the volume controller object is optionally present —
on a host lacking the capability it is absent, so callers null-check
and no access throws (the read is total) — and when present it exposes
exactly the operations named `requestUp()` and `requestDown()`, both
returning no value. -/
theorem volumeManager_optional_and_methods :
    volumeManagerMethods.map MethodDecl.mname = ["requestUp", "requestDown"]
      ∧ (∀ m ∈ volumeManagerMethods, m.returnsVoid = true)
      ∧ (∀ cap : Option VolumeDevice, readVolumeManager ⟨cap⟩ = cap) := by
  exact ⟨rfl, by decide, fun cap => rfl⟩

/-- Witness for C8 (amended) at the method `requestUp` and an absent
controller. -/
theorem volumeManager_optional_and_methods_witness :
    MethodDecl.returnsVoid ⟨"requestUp", true⟩ = true
      ∧ readVolumeManager ⟨none⟩ = none :=
  ⟨volumeManager_optional_and_methods.2.1 ⟨"requestUp", true⟩ (by decide),
   volumeManager_optional_and_methods.2.2 none⟩

/-- The observable state of a video element, with the Cloud Phone
augmentation of `src/types.d.ts` lines 242-286: the inline-video flag is
reachable both as the `x-puffin-playsinline` attribute and as the
`playsInline` boolean property, next to the standard media-element state
(duration, playback rate, muted, paused, controls, current time).  The
spec leaves the two accessors unsynchronized, so they are modelled as
independent fields. -/
structure VideoElementState where
  xPuffinPlaysinline : Option String
  playsInline : Bool
  duration : Rat
  playbackRate : Rat
  muted : Bool
  paused : Bool
  controls : Bool
  currentTime : Rat
deriving DecidableEq

/-- Modelled from the spec: setting the `playsInline` boolean property
is purely a presentation switch on the element. -/
def setPlaysInlineProp (v : VideoElementState) (b : Bool) : VideoElementState :=
  { v with playsInline := b }

/-- Modelled from the spec: setting the `x-puffin-playsinline` attribute
(to any string value, as in `setAttribute`) is purely a presentation
switch on the element. -/
def setPlaysInlineAttr (v : VideoElementState) (val : String) : VideoElementState :=
  { v with xPuffinPlaysinline := some val }

/-- C9: setting the inline-video flag — whether through the
`x-puffin-playsinline` attribute or the `playsInline` property — leaves
every other media-element state field unchanged: in particular duration,
playback rate, and muted, and also the playback controls and playback
state (paused, current time). -/
theorem playsInline_isolation (v : VideoElementState) (b : Bool) (val : String) :
    ((setPlaysInlineProp v b).duration = v.duration
      ∧ (setPlaysInlineProp v b).playbackRate = v.playbackRate
      ∧ (setPlaysInlineProp v b).muted = v.muted
      ∧ (setPlaysInlineProp v b).paused = v.paused
      ∧ (setPlaysInlineProp v b).controls = v.controls
      ∧ (setPlaysInlineProp v b).currentTime = v.currentTime
      ∧ (setPlaysInlineProp v b).xPuffinPlaysinline = v.xPuffinPlaysinline)
    ∧ ((setPlaysInlineAttr v val).duration = v.duration
      ∧ (setPlaysInlineAttr v val).playbackRate = v.playbackRate
      ∧ (setPlaysInlineAttr v val).muted = v.muted
      ∧ (setPlaysInlineAttr v val).paused = v.paused
      ∧ (setPlaysInlineAttr v val).controls = v.controls
      ∧ (setPlaysInlineAttr v val).currentTime = v.currentTime
      ∧ (setPlaysInlineAttr v val).playsInline = v.playsInline) :=
  ⟨⟨rfl, rfl, rfl, rfl, rfl, rfl, rfl⟩, ⟨rfl, rfl, rfl, rfl, rfl, rfl, rfl⟩⟩

end CloudPhone
